import Mathlib

/-!
# Verification of the image admission pipeline

A shallow embedding of the aragon image-admission backend: the size,
face, blur and perceptual-hash analyzer stages, the pipeline
orchestrator (`processor.js` / `imageService.js`), the duplicate
candidate fetch and comparison (`duplicateDetection.js`), the guarded
face validation (`faceDetection.js`), and the manual re-process
controller (`imageController.js`).

External collaborators (the `sharp` image library, the Prisma record
store, the blob store) are modelled as inputs: image decoding results,
raw grayscale buffers, channel statistics and fetch results are
parameters, while every decision made by the repository's own
JavaScript is translated into executable Lean definitions.  JavaScript
exceptions are modelled with `Except`; JavaScript number arithmetic
that the code performs on these values is exact in every case used
here (integer arithmetic and division by powers of two), so `Nat`/`ℚ`
model it faithfully.
-/

/-- Image record lifecycle status, from the Prisma schema:
{PENDING, PROCESSING, PROCESSED, FAILED}. -/
inductive Status where
  | PENDING
  | PROCESSING
  | PROCESSED
  | FAILED
deriving DecidableEq, Repr

/-- Result shape `{isValid, reason}` returned by the validators
(`validateImageSize`, `validateFaceCount`, `validateFacesWithOverride`). -/
structure ValidationResult where
  isValid : Bool
  reason : Option String
deriving DecidableEq, Repr

/-! ## Size stage — `src/services/image/sizeValidation.js` -/

/-- `MIN_WIDTH` constant from `validateImageSize`. -/
def MIN_WIDTH : Nat := 800

/-- `MIN_HEIGHT` constant from `validateImageSize`. -/
def MIN_HEIGHT : Nat := 800

/-- `MIN_SIZE_IN_BYTES` constant from `validateImageSize` (100 KB). -/
def MIN_SIZE_IN_BYTES : Nat := 100 * 1024

/-- JavaScript `(byteLength / 1024).toFixed(1)`.  `byteLength / 1024`
is exact in IEEE doubles (division by a power of two), and `toFixed(1)`
picks the integer `n` minimising `|n / 10 - x|`, the larger on ties
(round half up for non-negative `x`), so
`n = ⌊byteLength·10/1024 + 1/2⌋ = ⌊(byteLength·20 + 1024)/2048⌋`. -/
def jsToFixed1KB (byteLength : Nat) : String :=
  let n : Nat := (byteLength * 20 + 1024) / 2048
  toString (n / 10) ++ "." ++ toString (n % 10)

/-- `validateImageSize(imageBuffer)`.  The `sharp(imageBuffer).metadata()`
call is modelled by the `decoded` argument: `.ok (width, height)` when
the metadata decodes, `.error msg` when sharp throws (the function's
`catch` block).  `byteLength` is `imageBuffer.length`. -/
def validateImageSize (decoded : Except String (Nat × Nat))
    (byteLength : Nat) : ValidationResult :=
  match decoded with
  | .error msg =>
      { isValid := false
        reason := some ("Failed to validate image: " ++ msg) }
  | .ok (width, height) =>
      if width < MIN_WIDTH ∨ height < MIN_HEIGHT then
        { isValid := false
          reason := some ("Image resolution too low. Minimum required: " ++
            toString MIN_WIDTH ++ "x" ++ toString MIN_HEIGHT ++
            "px, got: " ++ toString width ++ "x" ++ toString height ++ "px") }
      else if byteLength < MIN_SIZE_IN_BYTES then
        { isValid := false
          reason := some ("Image file size too small. Minimum required: " ++
            toString (MIN_SIZE_IN_BYTES / 1024) ++ "KB, got: " ++
            jsToFixed1KB byteLength ++ "KB") }
      else
        { isValid := true, reason := none }

/-- C4: for every decodable image the size stage accepts iff
width ≥ 800, height ≥ 800 and byte length ≥ 100·1024; exactly 800×800
at exactly 100 KB is accepted and 799×800 is rejected; on a dimension
rejection the message quotes both required minimums and the observed
dimensions, and on a byte-size rejection it quotes both minimums and
the observed size in KB rounded to one decimal. -/
theorem validateImageSize_accepts_iff (w h len : Nat) :
    ((validateImageSize (.ok (w, h)) len).isValid = true ↔
      (800 ≤ w ∧ 800 ≤ h ∧ 100 * 1024 ≤ len)) ∧
    (w < 800 ∨ h < 800 →
      (validateImageSize (.ok (w, h)) len).reason =
        some ("Image resolution too low. Minimum required: " ++
          toString 800 ++ "x" ++ toString 800 ++ "px, got: " ++
          toString w ++ "x" ++ toString h ++ "px")) ∧
    (800 ≤ w → 800 ≤ h → len < 100 * 1024 →
      (validateImageSize (.ok (w, h)) len).reason =
        some ("Image file size too small. Minimum required: " ++
          toString 100 ++ "KB, got: " ++ jsToFixed1KB len ++ "KB")) ∧
    (validateImageSize (.ok (800, 800)) (100 * 1024)).isValid = true ∧
    (validateImageSize (.ok (799, 800)) (200 * 1024)).isValid = false := by
  refine ⟨?_, ?_, ?_, by decide, by decide⟩
  · by_cases h1 : w < MIN_WIDTH ∨ h < MIN_HEIGHT
    · simp only [validateImageSize, if_pos h1]
      simp only [MIN_WIDTH, MIN_HEIGHT] at h1
      simp
      omega
    · by_cases h2 : len < MIN_SIZE_IN_BYTES
      · simp only [validateImageSize, if_neg h1, if_pos h2]
        simp only [MIN_WIDTH, MIN_HEIGHT] at h1
        simp only [MIN_SIZE_IN_BYTES] at h2
        simp
        omega
      · simp only [validateImageSize, if_neg h1, if_neg h2]
        simp only [MIN_WIDTH, MIN_HEIGHT] at h1
        simp only [MIN_SIZE_IN_BYTES] at h2
        simp
        omega
  · intro h1
    have h1' : w < MIN_WIDTH ∨ h < MIN_HEIGHT := by
      simpa only [MIN_WIDTH, MIN_HEIGHT] using h1
    simp only [validateImageSize, if_pos h1']
    rfl
  · intro hw hh hlen
    have h1' : ¬ (w < MIN_WIDTH ∨ h < MIN_HEIGHT) := by
      simp only [MIN_WIDTH, MIN_HEIGHT]
      omega
    have h2' : len < MIN_SIZE_IN_BYTES := by
      simpa only [MIN_SIZE_IN_BYTES] using hlen
    simp only [validateImageSize, if_neg h1', if_pos h2']
    rfl

/-- Witness for `validateImageSize_accepts_iff` at 799×800, 200 KB:
the dimension-rejection branch fires with the dimension message. -/
theorem validateImageSize_accepts_iff_witness :
    (validateImageSize (.ok (799, 800)) (200 * 1024)).reason =
      some ("Image resolution too low. Minimum required: " ++
        toString 800 ++ "x" ++ toString 800 ++ "px, got: " ++
        toString 799 ++ "x" ++ toString 800 ++ "px") :=
  (validateImageSize_accepts_iff 799 800 (200 * 1024)).2.1 (by decide)

/-! ## Duplicate detection — `src/services/image/duplicateDetection.js` -/

/-- The `metaData` JSON blob as used by duplicate detection; other
keys of the blob are never read there and are elided. -/
structure MetaData where
  pHash : Option String := none
deriving DecidableEq, Repr

/-- A row of the `image` table, restricted to the columns this
development reads. -/
structure ImageRecord where
  id : String
  originalName : String
  status : Status
  metaData : Option MetaData := none
deriving DecidableEq, Repr

/-- The projection `select: {id, originalName, metaData}` used by the
candidate fetch. -/
structure Candidate where
  id : String
  originalName : String
  metaData : Option MetaData
deriving DecidableEq, Repr

/-- JavaScript `s.toLowerCase()` on the character list (exact on the
ASCII names this code compares). -/
def jsToLower (s : String) : String :=
  String.mk (s.data.map Char.toLower)

/-- JavaScript truthiness of an optional string: `null`/absent and the
empty string are falsy. -/
def strTruthy : Option String → Bool
  | none => false
  | some s => s ≠ ""

/-- The candidate fetch at the top of `checkDuplicateImage` (the spec
calls this operation `findProcessedWithHash`):
`prisma.image.findMany({ where: { status: "PROCESSED",
...(excludeId && { id: { not: excludeId } }) },
select: { id, originalName, metaData } })`.
The spread `...(excludeId && …)` adds the id exclusion only when
`excludeId` is truthy.  There is no condition on `metaData.pHash`. -/
def findProcessedCandidates (db : List ImageRecord)
    (excludeId : Option String) : List Candidate :=
  (db.filter fun r =>
      decide (r.status = Status.PROCESSED ∧
        (strTruthy excludeId = true → some r.id ≠ excludeId))).map
    fun r => { id := r.id, originalName := r.originalName, metaData := r.metaData }

/-- `parseInt(h, 16)` on a single character: its hex value, or `none`
for JavaScript `NaN` on a non-hex character. -/
def hexDigitVal (c : Char) : Option Nat :=
  if '0' ≤ c ∧ c ≤ '9' then some (c.toNat - '0'.toNat)
  else if 'a' ≤ c ∧ c ≤ 'f' then some (c.toNat - 'a'.toNat + 10)
  else if 'A' ≤ c ∧ c ≤ 'F' then some (c.toNat - 'A'.toNat + 10)
  else none

/-- `.padStart(4, "0")` on a character list. -/
def padStart4 (s : List Char) : List Char :=
  List.replicate (4 - s.length) '0' ++ s

/-- One step of `hexToBinary`: `parseInt(h, 16).toString(2).padStart(4, "0")`.
For a hex digit this is its 4-character binary expansion;
`NaN.toString(2)` is the string `"NaN"`, padded to `"0NaN"`. -/
def hexCharToBin4 (c : Char) : List Char :=
  match hexDigitVal c with
  | some v => padStart4 (Nat.toDigits 2 v)
  | none => padStart4 "NaN".data

/-- `hexToBinary` from the comparison loop of `checkDuplicateImage`:
split the string into characters, expand each, join. -/
def hexToBinary (hex : String) : String :=
  String.mk (hex.data.foldr (fun c acc => hexCharToBin4 c ++ acc) [])

/-- The character-wise distance loop:
`for (i < min(len1, len2)) if (binary1[i] !== binary2[i]) distance++`. -/
def hammingOnMin : List Char → List Char → Nat
  | x :: xs, y :: ys => (if x ≠ y then 1 else 0) + hammingOnMin xs ys
  | _, _ => 0

/-- `SIMILARITY_THRESHOLD` from `checkDuplicateImage`. -/
def SIMILARITY_THRESHOLD : Nat := 3

/-- Result shape `{isDuplicate, similarImage}` of `checkDuplicateImage`. -/
structure DupCheckResult where
  isDuplicate : Bool
  similarImage : Option Candidate
deriving DecidableEq, Repr

/-- The guard `if (image.metaData && image.metaData.pHash)`: the pHash
the loop compares against, `none` when either is falsy. -/
def storedPHash (c : Candidate) : Option String :=
  match c.metaData with
  | none => none
  | some m =>
      match m.pHash with
      | none => none
      | some p => if p ≠ "" then some p else none

/-- The `for … break` hash-comparison loop of `checkDuplicateImage`:
skip candidates without a truthy stored pHash; report the first
candidate whose expanded hash is within `SIMILARITY_THRESHOLD`. -/
def dupScan (hash : String) : List Candidate → DupCheckResult
  | [] => { isDuplicate := false, similarImage := none }
  | c :: rest =>
      match storedPHash c with
      | some existingHash =>
          if hammingOnMin (hexToBinary hash).data (hexToBinary existingHash).data
              ≤ SIMILARITY_THRESHOLD then
            { isDuplicate := true, similarImage := some c }
          else dupScan hash rest
      | none => dupScan hash rest

/-- `checkDuplicateImage(hash, excludeId, originalFileName)`.  The
`fetchOutcome` argument models the `prisma.image.findMany` call — the
only statement in the `try` block that can throw; on `.error` the
`catch` block reports no-duplicate (fail-open).  The fast path runs
only when `originalFileName` is truthy (non-empty), before any hash
comparison. -/
def checkDuplicateImage (fetchOutcome : Except String (List ImageRecord))
    (hash : String) (excludeId : Option String)
    (originalFileName : String) : DupCheckResult :=
  match fetchOutcome with
  | .error _ => { isDuplicate := false, similarImage := none }
  | .ok db =>
      let processedImages := findProcessedCandidates db excludeId
      let fastPath : Option Candidate :=
        if originalFileName ≠ "" then
          processedImages.find? fun img =>
            jsToLower img.originalName == jsToLower originalFileName
        else none
      match fastPath with
      | some exactMatch => { isDuplicate := true, similarImage := some exactMatch }
      | none => dupScan hash processedImages

/-! ## Guarded face stage — `faceDetection.js`, `validateFacesWithOverride` -/

/-- The average of the per-channel standard deviations compared to 60:
`channels.reduce((sum, ch) => sum + ch.stdev, 0) / channels.length < 60`.
For an empty channel list JavaScript yields `0/0 = NaN` and
`NaN < 60` is false. -/
def avgStdDevBelow60 (channelStdevs : List ℚ) : Bool :=
  match channelStdevs with
  | [] => false
  | _ => decide ((channelStdevs.foldl (· + ·) 0) / (channelStdevs.length : ℚ) < 60)

/-- `validateFacesWithOverride(imageBuffer)`.  `base` is the result of
the inner `validateFaceCount` call (that function catches all its own
errors, so it always returns a result).  `metaStats` models the
`sharp` metadata and channel-statistics reads performed by the
override checks: `.ok ((width, height), stdevs)`, or `.error` when
they throw, in which case the outer `catch` fails open and accepts.
The `details` payloads are elided; only the verdict is modelled. -/
def validateFacesWithOverride (base : ValidationResult)
    (metaStats : Except String ((Nat × Nat) × List ℚ)) : ValidationResult :=
  if base.isValid then base
  else
    match metaStats with
    | .error _ => { isValid := true, reason := none }
    | .ok ((width, height), channelStdevs) =>
        let isPortrait := height > width
        let isSmallImage := width < 1200 ∧ height < 1200
        if isPortrait ∨ isSmallImage then
          { isValid := true, reason := none }
        else if avgStdDevBelow60 channelStdevs then
          { isValid := true, reason := none }
        else
          base

/-! ## Blur stage — `blurDetection.js`, `detectBlurryImage` -/

/-- The numeric summaries the four blur tests compare against their
thresholds.  They are computed by `sharp` convolutions plus JavaScript
reduction loops over raw pixel data; this development treats the
numbers as inputs and models every decision taken on them. -/
structure BlurNumbers where
  /-- `(sharpenedStdDev - originalStdDev) / originalStdDev` -/
  sharpeningResponse : ℚ
  /-- `(sharpBlockCount / totalBlockCount) * 100` -/
  sharpBlockPercentage : ℚ
  /-- `(strongEdgePixels / totalPixels) * 100` -/
  strongEdgePercentage : ℚ
  /-- `horizGradient.channels[0].sum` (non-negative) -/
  horizGradientSum : ℚ
  /-- `vertGradient.channels[0].sum` (non-negative) -/
  vertGradientSum : ℚ
  /-- `GRADIENT_THRESHOLD = width * height * 5` -/
  gradientThreshold : ℚ
deriving DecidableEq, Repr

/-- Result shape `{isBlurry, reason}` of `detectBlurryImage`
(the `details` payload is elided). -/
structure BlurVerdict where
  isBlurry : Bool
  reason : Option String
deriving DecidableEq, Repr

/-- `directionalBlurRatio > 3` where
`directionalBlurRatio = max(H,V) / min(H,V)`.  For the non-negative
gradient sums this is `max > 3·min` with `max > 0`, which also matches
JavaScript when `min = 0` (`Infinity > 3` is true unless both sums are
zero, where `NaN > 3` is false). -/
def directionalRatioAbove3 (h v : ℚ) : Bool :=
  decide (0 < max h v ∧ 3 * min h v < max h v)

/-- `detectBlurryImage(imageBuffer)`.  `advanced` models the whole
four-method analysis up to its numeric summaries (`.error` when any
`sharp` call or loop in the `try` block throws); `fallbackStd` models
the grayscale σ of the single-σ fallback (`.error` when the fallback
throws as well). -/
def detectBlurryImage (advanced : Except String BlurNumbers)
    (fallbackStd : Except String ℚ) : BlurVerdict :=
  match advanced with
  | .ok nums =>
      let isBlurryBySharpening : Bool := decide (nums.sharpeningResponse > 0.2)
      let isBlurryByBlockAnalysis : Bool := decide (nums.sharpBlockPercentage < 15)
      let isBlurryByEdgeDistribution : Bool := decide (nums.strongEdgePercentage < 3)
      let isBlurryByGradient : Bool :=
        decide (nums.horizGradientSum < nums.gradientThreshold ∧
          nums.vertGradientSum < nums.gradientThreshold)
      let blurryVotes :=
        ([isBlurryBySharpening, isBlurryByBlockAnalysis,
          isBlurryByEdgeDistribution, isBlurryByGradient].filter (· = true)).length
      let isBlurry := blurryVotes ≥ 2
      let isMotionBlur : Bool :=
        directionalRatioAbove3 nums.horizGradientSum nums.vertGradientSum &&
          decide (nums.horizGradientSum < nums.gradientThreshold ∨
            nums.vertGradientSum < nums.gradientThreshold)
      let blurReason : Option String :=
        if isBlurry ∨ isMotionBlur then
          some (if isMotionBlur then "Motion blur detected"
            else if isBlurryBySharpening then "Low frequency content (overall blur)"
            else if isBlurryByBlockAnalysis then "Insufficient sharp details"
            else if isBlurryByEdgeDistribution then "Weak edge definition"
            else if isBlurryByGradient then "Poor focus measure"
            else "Multiple blur indicators detected")
        else none
      { isBlurry := isBlurry || isMotionBlur, reason := blurReason }
  | .error _ =>
      match fallbackStd with
      | .ok stdDev =>
          let isLowContrast : Bool := decide (stdDev < 25)
          { isBlurry := isLowContrast
            reason := if isLowContrast then
                some "Low image contrast (fallback detection)"
              else none }
      | .error _ =>
          { isBlurry := true, reason := some "Image analysis failed" }

/-! ## Pipeline orchestrator — `src/services/image/processor.js` -/

/-- Contiguous-substring test on character lists, the meaning of
JavaScript `hay.includes(sub)`. -/
def containsSub (hay sub : List Char) : Bool :=
  match hay with
  | [] => sub.isEmpty
  | c :: t => sub.isPrefixOf (c :: t) || containsSub t sub

/-- JavaScript `msg.includes(sub)`. -/
def jsIncludes (hay sub : String) : Bool :=
  containsSub hay.data sub.data

/-- The `catch` block's substring map (lines 206–232 of
`processor.js`): picks `(userFriendlyMessage, validationError)` from
the exception message, checked in source order. -/
def categorizeError (msg : String) : String × String :=
  if jsIncludes msg "duplicate" then
    ("This image appears to be a duplicate of one you\x27ve already uploaded",
      "duplicate_image_detected")
  else if jsIncludes msg "resolution" || jsIncludes msg "dimensions" then
    ("Image resolution is too low. Please upload a larger image (minimum 800x800px)",
      "size_validation_failed")
  else if jsIncludes msg "size" then
    ("Image file size is too small. Please upload a larger image file (minimum 100KB)",
      "size_validation_failed")
  else if jsIncludes msg "format" || jsIncludes msg "unsupported" then
    ("Unsupported image format. Please use JPEG, PNG, or HEIC formats",
      "format_validation_failed")
  else if jsIncludes msg "face" then
    ("Multiple faces detected in image. Please upload a photo with at most one face.",
      "multiple_faces_detected")
  else
    ("Image processing failed", "processing_error")

/-- The metaData keys written by the orchestrators.  Diagnostic-only
keys (`width`, `height`, `fileSize`, `faceData`, `blurDetails`,
`format`, `processingTime`, `faceCount`) are elided. -/
structure MetaWrite where
  rejectionReason : Option String := none
  validationErrors : List String := []
  pHash : Option String := none
  similarTo : Option String := none
  technicalError : Option String := none
deriving DecidableEq, Repr

/-- One `prisma.image.update` performed by an orchestrator: the status
it writes and, when present, the metaData blob.  (`processedPath` and
`processedSize` on the success write are elided.) -/
structure DbWrite where
  status : Status
  meta : Option MetaWrite := none
deriving DecidableEq, Repr

/-- The initial `PENDING → PROCESSING` update. -/
def processingWrite : DbWrite := { status := Status.PROCESSING }

/-- A stage-rejection update: `status: "FAILED"` with
`rejectionReason` and `validationErrors`. -/
def failWrite (errs : List String) (reason : Option String) : DbWrite :=
  { status := Status.FAILED
    meta := some { rejectionReason := reason, validationErrors := errs } }

/-- The `catch` block's FAILED update: categorized message and code,
with `technicalError` attached only under
`process.env.NODE_ENV === "development"`. -/
def catchWrite (errMsg : String) (devFlag : Bool) : DbWrite :=
  { status := Status.FAILED
    meta := some
      { rejectionReason := some (categorizeError errMsg).1
        validationErrors := [(categorizeError errMsg).2]
        technicalError := if devFlag then some errMsg else none } }

/-- The analyzer stages, in pipeline terms. -/
inductive Stage where
  | size
  | face
  | blur
  | duplicate
deriving DecidableEq, Repr

/-- The external inputs of one `processor.js` `processImage` run: for
every collaborator call, its outcome (`.error` models a thrown
exception). -/
structure PipelineEnv where
  /-- `getImageBuffer(image.originalPath)` -/
  bufferFetch : Except String Unit
  /-- `sharp(imageBuffer).metadata()` as used by `validateImageSize` -/
  decoded : Except String (Nat × Nat)
  /-- `imageBuffer.length` -/
  byteLength : Nat
  /-- result of the inner `validateFaceCount` (never throws) -/
  faceBase : ValidationResult
  /-- metadata and channel stdevs read by the face override checks -/
  faceMetaStats : Except String ((Nat × Nat) × List ℚ)
  /-- the four-method blur analysis numbers -/
  blurAdvanced : Except String BlurNumbers
  /-- grayscale σ of the blur fallback -/
  blurFallback : Except String ℚ
  /-- `generateImageHash(imageBuffer)` -/
  hashOutcome : Except String String
  /-- the candidate fetch inside `checkDuplicateImage` -/
  dupFetch : Except String (List ImageRecord)
  /-- building and storing the processed derivative -/
  deriveOutcome : Except String Unit
  /-- `process.env.NODE_ENV === "development"` -/
  devFlag : Bool

/-- `processImage(imageId)` from `processor.js`.  Returns the list of
analyzer stages that were invoked and the sequence of record updates,
or the thrown `ApiError` when the record does not exist.  A record
whose status is not PENDING is skipped unchanged (no stage, no
update).  Any collaborator exception after the PROCESSING update falls
into the `catch` block, which writes `catchWrite`. -/
def processImage (record : Option ImageRecord) (env : PipelineEnv) :
    Except (Nat × String) (List Stage × List DbWrite) :=
  match record with
  | none => .error (404, "Image not found")
  | some img =>
      if img.status ≠ Status.PENDING then .ok ([], [])
      else .ok <|
        match env.bufferFetch with
        | .error e => ([], [processingWrite, catchWrite e env.devFlag])
        | .ok _ =>
            let sizeValidation := validateImageSize env.decoded env.byteLength
            if !sizeValidation.isValid then
              -- the FAILED update's metaData re-reads
              -- `sharp(imageBuffer).metadata()` for its width/height
              -- diagnostics (lines 60-69); on an undecodable buffer
              -- those reads rethrow the same sharp error and the
              -- update never executes: the run falls into the catch
              match env.decoded with
              | .error e =>
                  ([Stage.size], [processingWrite, catchWrite e env.devFlag])
              | .ok _ =>
                  ([Stage.size],
                   [processingWrite,
                    failWrite ["size_validation_failed"] sizeValidation.reason])
            else
              let faceValidation :=
                validateFacesWithOverride env.faceBase env.faceMetaStats
              if !faceValidation.isValid then
                ([Stage.size, Stage.face],
                 [processingWrite,
                  failWrite ["multiple_faces_detected"] faceValidation.reason])
              else
                let blurDetection :=
                  detectBlurryImage env.blurAdvanced env.blurFallback
                if blurDetection.isBlurry then
                  ([Stage.size, Stage.face, Stage.blur],
                   [processingWrite,
                    failWrite ["blurry_image_detected"]
                      (some "Image is too blurry. Please upload a clearer photo.")])
                else
                  match env.hashOutcome with
                  | .error e =>
                      ([Stage.size, Stage.face, Stage.blur],
                       [processingWrite, catchWrite e env.devFlag])
                  | .ok imageHash =>
                      let dup := checkDuplicateImage env.dupFetch imageHash
                        (some img.id) img.originalName
                      match dup.isDuplicate, dup.similarImage with
                      | true, some sim =>
                          ([Stage.size, Stage.face, Stage.blur, Stage.duplicate],
                           [processingWrite,
                            { status := Status.FAILED
                              meta := some
                                { rejectionReason := some ("Duplicate of image: " ++
                                    sim.id ++ " (" ++ sim.originalName ++ ")")
                                  validationErrors := ["duplicate_image_detected"]
                                  pHash := some imageHash
                                  similarTo := some sim.id } }])
                      | true, none =>
                          -- JS would throw reading `similarImage.id` of null;
                          -- `checkDuplicateImage` never produces this shape.
                          ([Stage.size, Stage.face, Stage.blur, Stage.duplicate],
                           [processingWrite,
                            catchWrite "Cannot read properties of null" env.devFlag])
                      | false, _ =>
                          match env.deriveOutcome with
                          | .error e =>
                              ([Stage.size, Stage.face, Stage.blur, Stage.duplicate],
                               [processingWrite, catchWrite e env.devFlag])
                          | .ok _ =>
                              ([Stage.size, Stage.face, Stage.blur, Stage.duplicate],
                               [processingWrite,
                                { status := Status.PROCESSED
                                  meta := some { pHash := some imageHash } }])

/-! ## Legacy orchestrator — `src/services/imageService.js`, `processImage`
(the variant the HTTP controllers call; it has no face or blur stage) -/

/-- The `catch` substring map of `imageService.js` (lines 431–453): like
`categorizeError` but with no `"face"` case. -/
def categorizeErrorService (msg : String) : String × String :=
  if jsIncludes msg "duplicate" then
    ("This image appears to be a duplicate of one you\x27ve already uploaded",
      "duplicate_image_detected")
  else if jsIncludes msg "resolution" || jsIncludes msg "dimensions" then
    ("Image resolution is too low. Please upload a larger image (minimum 800x800px)",
      "size_validation_failed")
  else if jsIncludes msg "size" then
    ("Image file size is too small. Please upload a larger image file (minimum 100KB)",
      "size_validation_failed")
  else if jsIncludes msg "format" || jsIncludes msg "unsupported" then
    ("Unsupported image format. Please use JPEG, PNG, or HEIC formats",
      "format_validation_failed")
  else
    ("Image processing failed", "processing_error")

/-- The `catch` block's FAILED update in `imageService.js`. -/
def catchWriteService (errMsg : String) (devFlag : Bool) : DbWrite :=
  { status := Status.FAILED
    meta := some
      { rejectionReason := some (categorizeErrorService errMsg).1
        validationErrors := [(categorizeErrorService errMsg).2]
        technicalError := if devFlag then some errMsg else none } }

/-- External inputs of one `imageService.js` `processImage` run (no
face or blur collaborators: that variant has neither stage). -/
structure ServiceEnv where
  /-- reading the original bytes (fs or S3) -/
  bufferFetch : Except String Unit
  /-- `sharp(imageBuffer).metadata()` as used by `validateImageSize` -/
  decoded : Except String (Nat × Nat)
  /-- `imageBuffer.length` -/
  byteLength : Nat
  /-- `generateImageHash(imageBuffer)` -/
  hashOutcome : Except String String
  /-- the candidate fetch inside `checkDuplicateImage` -/
  dupFetch : Except String (List ImageRecord)
  /-- building and storing the processed derivative -/
  deriveOutcome : Except String Unit
  /-- `process.env.NODE_ENV === "development"` -/
  devFlag : Bool

/-- `processImage(imageId)` from `imageService.js`: like the
`processor.js` orchestrator but with only the size and duplicate
stages.  A record whose status is not PENDING is skipped unchanged
("Skipping image … with status …"): no update is performed. -/
def imageServiceProcessImage (record : Option ImageRecord)
    (env : ServiceEnv) : Except (Nat × String) (List DbWrite) :=
  match record with
  | none => .error (404, "Image not found")
  | some img =>
      if img.status ≠ Status.PENDING then .ok []
      else .ok <|
        match env.bufferFetch with
        | .error e => [processingWrite, catchWriteService e env.devFlag]
        | .ok _ =>
            let sizeValidation := validateImageSize env.decoded env.byteLength
            if !sizeValidation.isValid then
              -- same diagnostic re-reads as in `processor.js`
              -- (imageService.js lines 317-327): on an undecodable
              -- buffer they rethrow and the run falls into the catch
              match env.decoded with
              | .error e =>
                  [processingWrite, catchWriteService e env.devFlag]
              | .ok _ =>
                  [processingWrite,
                   failWrite ["size_validation_failed"] sizeValidation.reason]
            else
              match env.hashOutcome with
              | .error e => [processingWrite, catchWriteService e env.devFlag]
              | .ok imageHash =>
                  let dup := checkDuplicateImage env.dupFetch imageHash
                    (some img.id) img.originalName
                  match dup.isDuplicate, dup.similarImage with
                  | true, some sim =>
                      [processingWrite,
                       { status := Status.FAILED
                         meta := some
                           { rejectionReason := some ("Duplicate of image: " ++
                               sim.id ++ " (" ++ sim.originalName ++ ")")
                             validationErrors := ["duplicate_image_detected"]
                             pHash := some imageHash
                             similarTo := some sim.id } }]
                  | true, none =>
                      [processingWrite,
                       catchWriteService "Cannot read properties of null" env.devFlag]
                  | false, _ =>
                      match env.deriveOutcome with
                      | .error e =>
                          [processingWrite, catchWriteService e env.devFlag]
                      | .ok _ =>
                          [processingWrite,
                           { status := Status.PROCESSED
                             meta := some { pHash := some imageHash } }]

/-! ## Manual re-process — `imageController.processImage`
(`POST /api/images/:id/process`) -/

/-- The controller's HTTP outcome: an `ApiError` passed to the error
handler, or the 202 accepted response. -/
inductive ControllerResponse where
  | apiError (statusCode : Nat) (message : String)
  | accepted (imageId : String)
deriving DecidableEq, Repr

/-- `imageController.processImage`: look the record up (404 when
absent), reject PROCESSED records with a 400 `ApiError`, otherwise
await `imageService.processImage(id)` and answer
202 "Image processing started".  Returns the response together with
the record updates the service run performed. -/
def imageControllerProcess (record : Option ImageRecord)
    (env : ServiceEnv) : ControllerResponse × List DbWrite :=
  match record with
  | none => (ControllerResponse.apiError 404 "Image not found", [])
  | some img =>
      if img.status = Status.PROCESSED then
        (ControllerResponse.apiError 400 "Image already processed", [])
      else
        match imageServiceProcessImage (some img) env with
        | .error e => (ControllerResponse.apiError e.1 e.2, [])
        | .ok writes => (ControllerResponse.accepted img.id, writes)

/-! ## C1 — pipeline stage order and first-rejection semantics -/

/-- C1 (amended): for a PENDING record (with the original bytes
readable), the pipeline invokes the stages in the fixed order size,
guarded face, blur, perceptual-hash duplicate check; on the first
rejecting verdict it writes PROCESSING then FAILED with
`rejectionReason` and a single-element `validationErrors` list holding
that stage's code, and the later stages are not invoked — except a
size rejection on an undecodable buffer: there the failure update's
own `sharp(imageBuffer).metadata()` diagnostic reads rethrow, and the
run instead ends in the catch write (code per the message map), still
without invoking any later stage. -/
theorem processImage_stage_order (img : ImageRecord) (env : PipelineEnv)
    (hst : img.status = Status.PENDING)
    (hbuf : env.bufferFetch = .ok ()) :
    (∀ w h, env.decoded = .ok (w, h) →
      (validateImageSize env.decoded env.byteLength).isValid = false →
      processImage (some img) env = .ok ([Stage.size],
        [processingWrite,
         failWrite ["size_validation_failed"]
           (validateImageSize env.decoded env.byteLength).reason])) ∧
    (∀ e, env.decoded = .error e →
      processImage (some img) env = .ok ([Stage.size],
        [processingWrite, catchWrite e env.devFlag])) ∧
    ((validateImageSize env.decoded env.byteLength).isValid = true →
      (validateFacesWithOverride env.faceBase env.faceMetaStats).isValid = false →
      processImage (some img) env = .ok ([Stage.size, Stage.face],
        [processingWrite,
         failWrite ["multiple_faces_detected"]
           (validateFacesWithOverride env.faceBase env.faceMetaStats).reason])) ∧
    ((validateImageSize env.decoded env.byteLength).isValid = true →
      (validateFacesWithOverride env.faceBase env.faceMetaStats).isValid = true →
      (detectBlurryImage env.blurAdvanced env.blurFallback).isBlurry = true →
      processImage (some img) env = .ok ([Stage.size, Stage.face, Stage.blur],
        [processingWrite,
         failWrite ["blurry_image_detected"]
           (some "Image is too blurry. Please upload a clearer photo.")])) ∧
    (∀ hsh sim,
      (validateImageSize env.decoded env.byteLength).isValid = true →
      (validateFacesWithOverride env.faceBase env.faceMetaStats).isValid = true →
      (detectBlurryImage env.blurAdvanced env.blurFallback).isBlurry = false →
      env.hashOutcome = .ok hsh →
      checkDuplicateImage env.dupFetch hsh (some img.id) img.originalName =
        { isDuplicate := true, similarImage := some sim } →
      processImage (some img) env = .ok
        ([Stage.size, Stage.face, Stage.blur, Stage.duplicate],
         [processingWrite,
          { status := Status.FAILED
            meta := some
              { rejectionReason := some ("Duplicate of image: " ++ sim.id ++
                  " (" ++ sim.originalName ++ ")")
                validationErrors := ["duplicate_image_detected"]
                pHash := some hsh
                similarTo := some sim.id } }])) := by
  refine ⟨?_, ?_, ?_, ?_, ?_⟩
  · intro w h hdec h1
    rw [hdec] at h1
    simp [processImage, hst, hbuf, hdec, h1]
  · intro e hdec
    have h1 : (validateImageSize (.error e) env.byteLength).isValid = false := rfl
    simp [processImage, hst, hbuf, hdec, h1]
  · intro h1 h2
    simp [processImage, hst, hbuf, h1, h2]
  · intro h1 h2 h3
    simp [processImage, hst, hbuf, h1, h2, h3]
  · intro hsh sim h1 h2 h3 h4 h5
    simp [processImage, hst, hbuf, h1, h2, h3, h4, h5]

/-- Witness for `processImage_stage_order`: a 500×500 image is
rejected by the size stage alone. -/
theorem processImage_stage_order_witness :
    processImage
      (some { id := "img-1", originalName := "a.jpg", status := Status.PENDING })
      { bufferFetch := .ok (), decoded := .ok (500, 500), byteLength := 200000,
        faceBase := { isValid := true, reason := none },
        faceMetaStats := .ok ((500, 500), []),
        blurAdvanced := .error "skip", blurFallback := .error "skip",
        hashOutcome := .ok "h", dupFetch := .ok [], deriveOutcome := .ok (),
        devFlag := false } =
      .ok ([Stage.size],
        [processingWrite,
         failWrite ["size_validation_failed"]
           (validateImageSize (.ok (500, 500)) 200000).reason]) :=
  (processImage_stage_order
    { id := "img-1", originalName := "a.jpg", status := Status.PENDING }
    { bufferFetch := .ok (), decoded := .ok (500, 500), byteLength := 200000,
      faceBase := { isValid := true, reason := none },
      faceMetaStats := .ok ((500, 500), []),
      blurAdvanced := .error "skip", blurFallback := .error "skip",
      hashOutcome := .ok "h", dupFetch := .ok [], deriveOutcome := .ok (),
      devFlag := false } rfl rfl).1 500 500 rfl (by decide)

/-- C1 counterexample (to the claim as stated): for a PENDING record
whose buffer is undecodable (sharp: "Input buffer has corrupt
header"), the size stage rejects, but the persisted single-element
`validationErrors` list is `["processing_error"]` — the catch write,
after the failure update's own metadata reads rethrow — not the size
stage's code. -/
theorem processImage_undecodable_cex :
    processImage
      (some { id := "img-3", originalName := "c.jpg", status := Status.PENDING })
      { bufferFetch := .ok (),
        decoded := .error "Input buffer has corrupt header",
        byteLength := 5, faceBase := { isValid := true, reason := none },
        faceMetaStats := .ok ((0, 0), []),
        blurAdvanced := .error "skip", blurFallback := .error "skip",
        hashOutcome := .ok "h", dupFetch := .ok [], deriveOutcome := .ok (),
        devFlag := false } =
      .ok ([Stage.size],
        [processingWrite,
         catchWrite "Input buffer has corrupt header" false]) ∧
    (validateImageSize (.error "Input buffer has corrupt header") 5).isValid
      = false ∧
    (catchWrite "Input buffer has corrupt header" false).meta =
      some { rejectionReason := some "Image processing failed"
             validationErrors := ["processing_error"]
             technicalError := none } ∧
    ["processing_error"] ≠ ["size_validation_failed"] := by
  refine ⟨rfl, rfl, by decide, by decide⟩

/-! ## C9 — undecodable input: the size stage does not throw, but the
failure update's diagnostic reads do -/

/-- C9 (amended): for an undecodable buffer the size stage itself does
not throw — `validateImageSize` catches sharp's error and returns
invalid with reason `Failed to validate image: <error>` — but the
size-failure update's own `sharp(imageBuffer).metadata()` diagnostic
reads rethrow, so the run falls into the catch block and the record
ends FAILED with the categorized code (never `size_validation_failed`
when the message has none of the size-map keywords). -/
theorem undecodable_size_catch (e : String) (img : ImageRecord)
    (env : PipelineEnv) (hst : img.status = Status.PENDING)
    (hbuf : env.bufferFetch = .ok ()) (hdec : env.decoded = .error e) :
    (validateImageSize (.error e) env.byteLength).isValid = false ∧
    (validateImageSize (.error e) env.byteLength).reason =
      some ("Failed to validate image: " ++ e) ∧
    processImage (some img) env = .ok ([Stage.size],
      [processingWrite, catchWrite e env.devFlag]) ∧
    (catchWrite e env.devFlag).meta =
      some { rejectionReason := some (categorizeError e).1
             validationErrors := [(categorizeError e).2]
             technicalError := if env.devFlag then some e else none } ∧
    (jsIncludes e "resolution" = false → jsIncludes e "dimensions" = false →
      jsIncludes e "size" = false →
      (categorizeError e).2 ≠ "size_validation_failed") := by
  refine ⟨rfl, rfl, ?_, rfl, ?_⟩
  · have h1 : (validateImageSize (.error e) env.byteLength).isValid = false := rfl
    simp [processImage, hst, hbuf, hdec, h1]
  · intro hres hdim hsize
    by_cases hdup : jsIncludes e "duplicate" = true
    · simp [categorizeError, hdup]
    · by_cases hfmt : (jsIncludes e "format" || jsIncludes e "unsupported") = true
      · simp [categorizeError, hdup, hres, hdim, hsize, hfmt]
      · by_cases hface : jsIncludes e "face" = true
        · simp [categorizeError, hdup, hres, hdim, hsize, hfmt, hface]
        · simp [categorizeError, hdup, hres, hdim, hsize, hfmt, hface]

/-- Witness for `undecodable_size_catch` on sharp's standard
undecodable-input message: the persisted code is not
`size_validation_failed`. -/
theorem undecodable_size_catch_witness :
    (categorizeError "Input buffer contains unsupported image format").2 ≠
      "size_validation_failed" :=
  (undecodable_size_catch "Input buffer contains unsupported image format"
    { id := "img-2", originalName := "b.bin", status := Status.PENDING }
    { bufferFetch := .ok (),
      decoded := .error "Input buffer contains unsupported image format",
      byteLength := 5, faceBase := { isValid := true, reason := none },
      faceMetaStats := .ok ((0, 0), []),
      blurAdvanced := .error "skip", blurFallback := .error "skip",
      hashOutcome := .ok "h", dupFetch := .ok [], deriveOutcome := .ok (),
      devFlag := false } rfl rfl rfl).2.2.2.2 (by decide) (by decide) (by decide)

/-- C9 counterexample (to the claim as stated): with sharp's
"Input buffer contains unsupported image format" message, the
undecodable upload terminates FAILED with
`validationErrors = ["format_validation_failed"]` — exactly the code
the claim says it avoids — not `["size_validation_failed"]`. -/
theorem undecodable_format_cex :
    processImage
      (some { id := "img-4", originalName := "d.bin", status := Status.PENDING })
      { bufferFetch := .ok (),
        decoded := .error "Input buffer contains unsupported image format",
        byteLength := 5, faceBase := { isValid := true, reason := none },
        faceMetaStats := .ok ((0, 0), []),
        blurAdvanced := .error "skip", blurFallback := .error "skip",
        hashOutcome := .ok "h", dupFetch := .ok [], deriveOutcome := .ok (),
        devFlag := false } =
      .ok ([Stage.size],
        [processingWrite,
         catchWrite "Input buffer contains unsupported image format" false]) ∧
    (catchWrite "Input buffer contains unsupported image format" false).meta =
      some { rejectionReason :=
               some "Unsupported image format. Please use JPEG, PNG, or HEIC formats"
             validationErrors := ["format_validation_failed"]
             technicalError := none } ∧
    ["format_validation_failed"] ≠ ["size_validation_failed"] := by
  refine ⟨rfl, by decide, by decide⟩

/-! ## C6 — catch-block categorization of uncaught exceptions -/

/-- C6: after the PENDING → PROCESSING transition, an uncaught
exception is written as FAILED with code chosen by substring-matching
the message in source order — duplicate, resolution/dimensions, size,
format/unsupported, face, otherwise processing_error — and the raw
exception text lands in metaData only when the development flag is
set. -/
theorem catch_categorization (msg : String) (dev : Bool) :
    (jsIncludes msg "duplicate" = true →
      (categorizeError msg).2 = "duplicate_image_detected") ∧
    (jsIncludes msg "duplicate" = false →
      (jsIncludes msg "resolution" || jsIncludes msg "dimensions") = true →
      (categorizeError msg).2 = "size_validation_failed") ∧
    (jsIncludes msg "duplicate" = false →
      (jsIncludes msg "resolution" || jsIncludes msg "dimensions") = false →
      jsIncludes msg "size" = true →
      (categorizeError msg).2 = "size_validation_failed") ∧
    (jsIncludes msg "duplicate" = false →
      (jsIncludes msg "resolution" || jsIncludes msg "dimensions") = false →
      jsIncludes msg "size" = false →
      (jsIncludes msg "format" || jsIncludes msg "unsupported") = true →
      (categorizeError msg).2 = "format_validation_failed") ∧
    (jsIncludes msg "duplicate" = false →
      (jsIncludes msg "resolution" || jsIncludes msg "dimensions") = false →
      jsIncludes msg "size" = false →
      (jsIncludes msg "format" || jsIncludes msg "unsupported") = false →
      jsIncludes msg "face" = true →
      (categorizeError msg).2 = "multiple_faces_detected") ∧
    (jsIncludes msg "duplicate" = false →
      (jsIncludes msg "resolution" || jsIncludes msg "dimensions") = false →
      jsIncludes msg "size" = false →
      (jsIncludes msg "format" || jsIncludes msg "unsupported") = false →
      jsIncludes msg "face" = false →
      (categorizeError msg).2 = "processing_error") ∧
    (catchWrite msg dev).status = Status.FAILED ∧
    (catchWrite msg dev).meta = some
      { rejectionReason := some (categorizeError msg).1
        validationErrors := [(categorizeError msg).2]
        technicalError := if dev then some msg else none } ∧
    (∀ (img : ImageRecord) (env : PipelineEnv),
      img.status = Status.PENDING → env.bufferFetch = .error msg →
      env.devFlag = dev →
      processImage (some img) env = .ok ([],
        [processingWrite, catchWrite msg dev])) := by
  refine ⟨?_, ?_, ?_, ?_, ?_, ?_, rfl, rfl, ?_⟩
  · intro h1
    simp [categorizeError, h1]
  · intro h1 h2
    simp [categorizeError, h1, h2]
  · intro h1 h2 h3
    simp [categorizeError, h1, h2, h3]
  · intro h1 h2 h3 h4
    simp [categorizeError, h1, h2, h3, h4]
  · intro h1 h2 h3 h4 h5
    simp [categorizeError, h1, h2, h3, h4, h5]
  · intro h1 h2 h3 h4 h5
    simp [categorizeError, h1, h2, h3, h4, h5]
  · intro img env hst hbuf hdev
    subst hdev
    simp [processImage, hst, hbuf]

/-- Witness for `catch_categorization`: a message containing
"dimensions" but not "duplicate" maps to `size_validation_failed`. -/
theorem catch_categorization_witness :
    (categorizeError "Invalid image dimensions").2 = "size_validation_failed" :=
  (catch_categorization "Invalid image dimensions" false).2.1
    (by decide) (by decide)

/-! ## C2 — manual re-process of a non-PROCESSED record -/

/-- C2 counterexample: re-processing a FAILED record answers 202 but
performs no record update at all — in particular it does not
transition the record back to PENDING (`imageService.processImage`
skips every non-PENDING record). -/
theorem reprocess_failed_cex :
    (imageControllerProcess
        (some { id := "img-9", originalName := "f.jpg", status := Status.FAILED })
        { bufferFetch := .ok (), decoded := .ok (900, 900), byteLength := 200000,
          hashOutcome := .ok "h", dupFetch := .ok [], deriveOutcome := .ok (),
          devFlag := false }) =
      (ControllerResponse.accepted "img-9", []) ∧
    ¬ ∃ w ∈ (imageControllerProcess
        (some { id := "img-9", originalName := "f.jpg", status := Status.FAILED })
        { bufferFetch := .ok (), decoded := .ok (900, 900), byteLength := 200000,
          hashOutcome := .ok "h", dupFetch := .ok [], deriveOutcome := .ok (),
          devFlag := false }).2, w.status = Status.PENDING := by
  constructor
  · rfl
  · intro h
    obtain ⟨w, hw, _⟩ := h
    have : (imageControllerProcess
        (some { id := "img-9", originalName := "f.jpg", status := Status.FAILED })
        { bufferFetch := .ok (), decoded := .ok (900, 900), byteLength := 200000,
          hashOutcome := .ok "h", dupFetch := .ok [], deriveOutcome := .ok (),
          devFlag := false }).2 = [] := rfl
    rw [this] at hw
    exact absurd hw (List.not_mem_nil w)

/-- C2 as amended: `POST /api/images/:id/process` fails 400
"Image already processed" on a PROCESSED record and 404 on an unknown
id; on any other status it answers 202 with the record's id, but the
scheduled `imageService.processImage` run only processes PENDING
records — a record in any other state (FAILED in particular) is
returned unchanged, with no transition back to PENDING. -/
theorem reprocess_behavior (img : ImageRecord) (env : ServiceEnv) :
    (img.status = Status.PROCESSED →
      imageControllerProcess (some img) env =
        (ControllerResponse.apiError 400 "Image already processed", [])) ∧
    (img.status ≠ Status.PROCESSED →
      (imageControllerProcess (some img) env).1 =
        ControllerResponse.accepted img.id) ∧
    (img.status ≠ Status.PROCESSED → img.status ≠ Status.PENDING →
      (imageControllerProcess (some img) env).2 = []) ∧
    imageControllerProcess none env =
      (ControllerResponse.apiError 404 "Image not found", []) := by
  refine ⟨?_, ?_, ?_, rfl⟩
  · intro h
    simp [imageControllerProcess, h]
  · intro h
    simp only [imageControllerProcess, if_neg h]
    rcases hs : imageServiceProcessImage (some img) env with e | writes
    · exact absurd hs (by
        simp only [imageServiceProcessImage]
        split <;> simp)
    · rfl
  · intro h hpend
    simp only [imageControllerProcess, if_neg h]
    have hs : imageServiceProcessImage (some img) env = .ok [] := by
      simp [imageServiceProcessImage, hpend]
    rw [hs]

/-- Witness for `reprocess_behavior` on a FAILED record: 202 response,
no writes. -/
theorem reprocess_behavior_witness :
    (imageControllerProcess
        (some { id := "img-8", originalName := "g.jpg", status := Status.FAILED })
        { bufferFetch := .ok (), decoded := .ok (900, 900), byteLength := 200000,
          hashOutcome := .ok "h", dupFetch := .ok [], deriveOutcome := .ok (),
          devFlag := false }).2 = [] :=
  (reprocess_behavior
    { id := "img-8", originalName := "g.jpg", status := Status.FAILED }
    { bufferFetch := .ok (), decoded := .ok (900, 900), byteLength := 200000,
      hashOutcome := .ok "h", dupFetch := .ok [], deriveOutcome := .ok (),
      devFlag := false }).2.2.1 (by decide) (by decide)

/-! ## C3 — the candidate fetch has no pHash condition -/

/-- Whether a fetched candidate carries a `metaData.pHash` key. -/
def pHashPresent (c : Candidate) : Bool :=
  (c.metaData.bind MetaData.pHash).isSome

/-- C3 counterexample: a PROCESSED record with no `metaData.pHash`
appears among the candidates returned by the fetch — the query filters
only on status (and the optional id exclusion), not on pHash
presence. -/
theorem findProcessedCandidates_cex :
    findProcessedCandidates
      [{ id := "a", originalName := "x.jpg", status := Status.PROCESSED,
         metaData := none }] none =
      [{ id := "a", originalName := "x.jpg", metaData := none }] ∧
    ¬ (∀ c ∈ findProcessedCandidates
        [{ id := "a", originalName := "x.jpg", status := Status.PROCESSED,
           metaData := none }] none, pHashPresent c = true) := by
  refine ⟨rfl, fun h => ?_⟩
  have := h { id := "a", originalName := "x.jpg", metaData := none }
    (by rw [(rfl : findProcessedCandidates
      [{ id := "a", originalName := "x.jpg", status := Status.PROCESSED,
         metaData := none }] none =
      [{ id := "a", originalName := "x.jpg", metaData := none }])]
        exact List.mem_singleton.mpr rfl)
  simp [pHashPresent] at this

/-- C3 as amended: the fetch returns exactly the PROCESSED records
(minus the excluded id, when the exclusion is truthy), regardless of
pHash presence, projecting only id, originalName and metaData; records
without a pHash are skipped later by the comparison loop, not by the
fetch. -/
theorem findProcessedCandidates_spec (db : List ImageRecord)
    (excludeId : Option String) (c : Candidate) :
    c ∈ findProcessedCandidates db excludeId ↔
      ∃ r ∈ db, r.status = Status.PROCESSED ∧
        (strTruthy excludeId = true → some r.id ≠ excludeId) ∧
        c = { id := r.id, originalName := r.originalName,
              metaData := r.metaData } := by
  simp only [findProcessedCandidates, List.mem_map, List.mem_filter,
    decide_eq_true_eq]
  constructor
  · rintro ⟨r, ⟨hmem, hs, hex⟩, rfl⟩
    exact ⟨r, hmem, hs, hex, rfl⟩
  · rintro ⟨r, hmem, hs, hex, rfl⟩
    exact ⟨r, ⟨hmem, hs, hex⟩, rfl⟩

/-! ## C5 — duplicate reporting: fast path, hash path, fail-open -/

/-- The body of the comparison loop's guard and test, as a predicate:
the candidate has a truthy stored pHash whose expansion is within the
similarity threshold of the probe hash. -/
def hashMatchB (hash : String) (c : Candidate) : Bool :=
  match storedPHash c with
  | some p => decide (hammingOnMin (hexToBinary hash).data
      (hexToBinary p).data ≤ SIMILARITY_THRESHOLD)
  | none => false

/-- The `for … break` loop returns the first candidate matched by
`hashMatchB`. -/
theorem dupScan_eq_find (hash : String) (l : List Candidate) :
    dupScan hash l =
      match l.find? (hashMatchB hash) with
      | some c => { isDuplicate := true, similarImage := some c }
      | none => { isDuplicate := false, similarImage := none } := by
  induction l with
  | nil => rfl
  | cons c rest ih =>
      simp only [dupScan, List.find?_cons, hashMatchB]
      rcases hp : storedPHash c with _ | p
      · simpa using ih
      · by_cases hd : hammingOnMin (hexToBinary hash).data
            (hexToBinary p).data ≤ SIMILARITY_THRESHOLD
        · simp [hd]
        · simpa [hd] using ih

/-- `hashMatchB` unfolded to the claim's phrasing
(`SIMILARITY_THRESHOLD = 3`). -/
theorem hashMatchB_true_iff (hash : String) (c : Candidate) :
    hashMatchB hash c = true ↔
      ∃ p, storedPHash c = some p ∧
        hammingOnMin (hexToBinary hash).data (hexToBinary p).data ≤ 3 := by
  unfold hashMatchB
  rcases h : storedPHash c with _ | p
  · simp
  · simp [SIMILARITY_THRESHOLD]

/-- The loop reports a duplicate exactly when some candidate matches. -/
theorem dupScan_isDuplicate_iff (hash : String) (l : List Candidate) :
    (dupScan hash l).isDuplicate = true ↔
      ∃ c ∈ l, hashMatchB hash c = true := by
  rw [dupScan_eq_find]
  rcases hf : l.find? (hashMatchB hash) with _ | c
  · simp only [List.find?_eq_none] at hf
    simp only [iff_false, Bool.not_eq_true]
    constructor
    · intro h
      cases h
    · intro h
      obtain ⟨c, hc, hm⟩ := h
      exact absurd hm (by simpa using hf c hc)
  · simp only []
    constructor
    · intro _
      exact ⟨c, List.mem_of_find?_eq_some hf, List.find?_some hf⟩
    · intro _
      trivial

/-- C5 counterexample: with an empty supplied `originalFileName` the
fast path is skipped (`if (originalFileName)`), so a candidate whose
originalName equals the supplied name case-insensitively — both
empty — is not reported as a duplicate (it has no stored pHash, so
the hash path misses too), contradicting the claim's "iff". -/
theorem checkDuplicateImage_cex :
    (checkDuplicateImage
        (.ok [{ id := "a", originalName := "", status := Status.PROCESSED,
                metaData := none }]) "ffff" none "").isDuplicate = false ∧
    ∃ c ∈ findProcessedCandidates
        [{ id := "a", originalName := "", status := Status.PROCESSED,
           metaData := none }] none,
      jsToLower c.originalName = jsToLower "" := by
  refine ⟨rfl, ⟨{ id := "a", originalName := "", metaData := none }, ?_, rfl⟩⟩
  decide

/-- C5 as amended: `checkDuplicateImage` reports a duplicate iff
either the supplied name is non-empty and some candidate's
originalName equals it case-insensitively (fast path, checked before
any hash comparison, first such candidate), or some candidate with a
truthy stored pHash is at Hamming distance ≤ 3 between the two hashes'
binary expansions (first such candidate, stopping there); on a fetch
error it reports no-duplicate (fail-open) and never throws. -/
theorem checkDuplicateImage_spec (db : List ImageRecord) (hash : String)
    (excludeId : Option String) (name : String) :
    (∀ e, checkDuplicateImage (.error e) hash excludeId name =
      { isDuplicate := false, similarImage := none }) ∧
    ((checkDuplicateImage (.ok db) hash excludeId name).isDuplicate = true ↔
      ((name ≠ "" ∧ ∃ c ∈ findProcessedCandidates db excludeId,
          jsToLower c.originalName = jsToLower name) ∨
        ∃ c ∈ findProcessedCandidates db excludeId, ∃ p,
          storedPHash c = some p ∧
          hammingOnMin (hexToBinary hash).data (hexToBinary p).data ≤ 3)) ∧
    (∀ c, name ≠ "" →
      (findProcessedCandidates db excludeId).find?
          (fun i => jsToLower i.originalName == jsToLower name) = some c →
      checkDuplicateImage (.ok db) hash excludeId name =
        { isDuplicate := true, similarImage := some c }) ∧
    (name = "" ∨ (findProcessedCandidates db excludeId).find?
          (fun i => jsToLower i.originalName == jsToLower name) = none →
      checkDuplicateImage (.ok db) hash excludeId name =
        match (findProcessedCandidates db excludeId).find? (hashMatchB hash) with
        | some c => { isDuplicate := true, similarImage := some c }
        | none => { isDuplicate := false, similarImage := none }) := by
  refine ⟨fun e => rfl, ?_, ?_, ?_⟩
  · by_cases hname : name = ""
    · subst hname
      have hrw : checkDuplicateImage (.ok db) hash excludeId "" =
          dupScan hash (findProcessedCandidates db excludeId) := by
        simp [checkDuplicateImage]
      rw [hrw, dupScan_isDuplicate_iff]
      simp [hashMatchB_true_iff]
    · rcases hf : (findProcessedCandidates db excludeId).find?
          (fun i => jsToLower i.originalName == jsToLower name) with _ | c
      · have hrw : checkDuplicateImage (.ok db) hash excludeId name =
            dupScan hash (findProcessedCandidates db excludeId) := by
          simp [checkDuplicateImage, hname, hf]
        rw [hrw, dupScan_isDuplicate_iff]
        constructor
        · intro h
          obtain ⟨c, hc, hm⟩ := h
          exact Or.inr ⟨c, hc, (hashMatchB_true_iff hash c).mp hm⟩
        · rintro (⟨-, c, hc, heq⟩ | ⟨c, hc, hm⟩)
          · exfalso
            have hnone := List.find?_eq_none.mp hf c hc
            simp only [beq_iff_eq] at hnone
            exact hnone heq
          · exact ⟨c, hc, (hashMatchB_true_iff hash c).mpr hm⟩
      · have hrw : checkDuplicateImage (.ok db) hash excludeId name =
            { isDuplicate := true, similarImage := some c } := by
          simp [checkDuplicateImage, hname, hf]
        rw [hrw]
        simp only [true_iff]
        refine Or.inl ⟨hname, c, List.mem_of_find?_eq_some hf, ?_⟩
        have := List.find?_some hf
        simpa using this
  · intro c hname hf
    simp [checkDuplicateImage, hname, hf]
  · intro h
    rcases h with hname | hf
    · subst hname
      have hrw : checkDuplicateImage (.ok db) hash excludeId "" =
          dupScan hash (findProcessedCandidates db excludeId) := by
        simp [checkDuplicateImage]
      rw [hrw, dupScan_eq_find]
    · by_cases hname : name = ""
      · subst hname
        have hrw : checkDuplicateImage (.ok db) hash excludeId "" =
            dupScan hash (findProcessedCandidates db excludeId) := by
          simp [checkDuplicateImage]
        rw [hrw, dupScan_eq_find]
      · have hrw : checkDuplicateImage (.ok db) hash excludeId name =
            dupScan hash (findProcessedCandidates db excludeId) := by
          simp [checkDuplicateImage, hname, hf]
        rw [hrw, dupScan_eq_find]

/-- Witness for `checkDuplicateImage_spec`: the fast path reports the
case-insensitively matching candidate. -/
theorem checkDuplicateImage_spec_witness :
    checkDuplicateImage
        (.ok [{ id := "a", originalName := "PHOTO.jpg",
                status := Status.PROCESSED, metaData := none }])
        "ffff" none "photo.JPG" =
      { isDuplicate := true
        similarImage :=
          some { id := "a", originalName := "PHOTO.jpg", metaData := none } } :=
  (checkDuplicateImage_spec
      [{ id := "a", originalName := "PHOTO.jpg", status := Status.PROCESSED,
         metaData := none }] "ffff" none "photo.JPG").2.2.1
    { id := "a", originalName := "PHOTO.jpg", metaData := none }
    (by decide) (by decide)

/-! ## C7 — portrait / low-variance override of a face rejection -/

/-- C7: in the guarded face stage, a Reject verdict is overridden to
Accept exactly when (a) height exceeds width or both dimensions are
under 1200 px, or (b) the per-channel color σ averaged over the
channels is below 60; otherwise the original Reject verdict stands
unchanged. -/
theorem face_override_iff (base : ValidationResult) (w h : Nat)
    (stdevs : List ℚ) (hbase : base.isValid = false) (hne : stdevs ≠ []) :
    ((validateFacesWithOverride base (.ok ((w, h), stdevs))).isValid = true ↔
      (w < h ∨ (w < 1200 ∧ h < 1200) ∨
        (stdevs.foldl (· + ·) 0) / (stdevs.length : ℚ) < 60)) ∧
    (¬ (w < h ∨ (w < 1200 ∧ h < 1200) ∨
        (stdevs.foldl (· + ·) 0) / (stdevs.length : ℚ) < 60) →
      validateFacesWithOverride base (.ok ((w, h), stdevs)) = base) := by
  have havg : avgStdDevBelow60 stdevs =
      decide ((stdevs.foldl (· + ·) 0) / (stdevs.length : ℚ) < 60) := by
    cases stdevs with
    | nil => exact absurd rfl hne
    | cons a l => rfl
  have hstep : validateFacesWithOverride base (.ok ((w, h), stdevs)) =
      if h > w ∨ (w < 1200 ∧ h < 1200) then
        { isValid := true, reason := none }
      else if (stdevs.foldl (· + ·) 0) / (stdevs.length : ℚ) < 60 then
        { isValid := true, reason := none }
      else base := by
    simp [validateFacesWithOverride, hbase, havg]
  rw [hstep]
  constructor
  · split_ifs with hg hs
    · refine iff_of_true rfl ?_
      rcases hg with hg | hg
      · exact Or.inl hg
      · exact Or.inr (Or.inl hg)
    · exact iff_of_true rfl (Or.inr (Or.inr hs))
    · refine iff_of_false (by simp [hbase]) ?_
      intro hc
      rcases hc with hc | hc | hc
      · exact hg (Or.inl hc)
      · exact hg (Or.inr hc)
      · exact hs hc
  · intro hnone
    have hgeom : ¬ (h > w ∨ (w < 1200 ∧ h < 1200)) := by
      intro hc
      rcases hc with hc | hc
      · exact hnone (Or.inl hc)
      · exact hnone (Or.inr (Or.inl hc))
    have hsig : ¬ ((stdevs.foldl (· + ·) 0) / (stdevs.length : ℚ) < 60) :=
      fun hc => hnone (Or.inr (Or.inr hc))
    rw [if_neg hgeom, if_neg hsig]

/-- Witness for `face_override_iff`: a 1000×1000 rejection is
overridden to Accept (both dimensions under 1200). -/
theorem face_override_iff_witness :
    (validateFacesWithOverride
        { isValid := false, reason := some "Multiple faces detected." }
        (.ok ((1000, 1000), [70]))).isValid = true :=
  ((face_override_iff
      { isValid := false, reason := some "Multiple faces detected." }
      1000 1000 [70] rfl (by decide)).1).mpr (by
    right
    left
    exact ⟨by decide, by decide⟩)

/-! ## C10 — the blur stage fails closed on total analyzer failure -/

/-- C10: when the four-method analysis throws and the single-σ
fallback throws as well, `detectBlurryImage` returns
`isBlurry = true` with reason "Image analysis failed" — the blur stage
fails closed — whereas the duplicate check fails open (no-duplicate on
fetch error) and the guarded face stage fails open (accepts when its
override reads throw). -/
theorem blur_fails_closed (e1 e2 : String) :
    detectBlurryImage (.error e1) (.error e2) =
      { isBlurry := true, reason := some "Image analysis failed" } ∧
    (∀ (e hash : String) (excl : Option String) (name : String),
      checkDuplicateImage (.error e) hash excl name =
        { isDuplicate := false, similarImage := none }) ∧
    (∀ (e : String) (base : ValidationResult), base.isValid = false →
      (validateFacesWithOverride base (.error e)).isValid = true) := by
  refine ⟨rfl, fun _ _ _ _ => rfl, fun e base hb => ?_⟩
  simp [validateFacesWithOverride, hb]

/-- Witness for `blur_fails_closed`: concrete error messages, and the
face fail-open at a concrete rejected base verdict. -/
theorem blur_fails_closed_witness :
    detectBlurryImage (.error "sharp failed") (.error "stats failed") =
      { isBlurry := true, reason := some "Image analysis failed" } ∧
    (validateFacesWithOverride
        { isValid := false, reason := some "Multiple faces detected." }
        (.error "stats failed")).isValid = true :=
  ⟨(blur_fails_closed "sharp failed" "stats failed").1,
   (blur_fails_closed "sharp failed" "stats failed").2.2 "stats failed"
     { isValid := false, reason := some "Multiple faces detected." } rfl⟩

/-! ## Perceptual hash — `duplicateDetection.js`, `generateImageHash`

The function thresholds the 32×32 grayscale buffer against its average,
builds the binary string, chunks it into 8-character pieces
(`.match(/.{1,8}/g)`), converts each with `parseInt(chunk, 2)` (first
character = most significant bit), and MD5-hexes the resulting byte
buffer.  MD5 is implemented below from the wire algorithm so the
digest computation is fully executable. -/

/-- `2^32`, the modulus of MD5 word arithmetic. -/
def m32 : Nat := 4294967296

/-- 32-bit left rotation (for `x < 2^32`). -/
def rotl32 (x n : Nat) : Nat :=
  ((x % m32) * 2 ^ n + (x % m32) / 2 ^ (32 - n)) % m32

/-- MD5 round function F = (B ∧ C) ∨ (¬B ∧ D). -/
def md5F (b c d : Nat) : Nat :=
  Nat.lor (Nat.land b c) (Nat.land (Nat.xor b 4294967295) d)

/-- MD5 round function G = (D ∧ B) ∨ (¬D ∧ C). -/
def md5G (b c d : Nat) : Nat :=
  Nat.lor (Nat.land d b) (Nat.land (Nat.xor d 4294967295) c)

/-- MD5 round function H = B ⊕ C ⊕ D. -/
def md5H (b c d : Nat) : Nat := Nat.xor (Nat.xor b c) d

/-- MD5 round function I = C ⊕ (B ∨ ¬D). -/
def md5I (b c d : Nat) : Nat :=
  Nat.xor c (Nat.lor b (Nat.xor d 4294967295))

/-- The 64 MD5 sine-derived constants. -/
def md5K : List Nat :=
  [0xd76aa478, 0xe8c7b756, 0x242070db, 0xc1bdceee,
   0xf57c0faf, 0x4787c62a, 0xa8304613, 0xfd469501,
   0x698098d8, 0x8b44f7af, 0xffff5bb1, 0x895cd7be,
   0x6b901122, 0xfd987193, 0xa679438e, 0x49b40821,
   0xf61e2562, 0xc040b340, 0x265e5a51, 0xe9b6c7aa,
   0xd62f105d, 0x02441453, 0xd8a1e681, 0xe7d3fbc8,
   0x21e1cde6, 0xc33707d6, 0xf4d50d87, 0x455a14ed,
   0xa9e3e905, 0xfcefa3f8, 0x676f02d9, 0x8d2a4c8a,
   0xfffa3942, 0x8771f681, 0x6d9d6122, 0xfde5380c,
   0xa4beea44, 0x4bdecfa9, 0xf6bb4b60, 0xbebfbc70,
   0x289b7ec6, 0xeaa127fa, 0xd4ef3085, 0x04881d05,
   0xd9d4d039, 0xe6db99e5, 0x1fa27cf8, 0xc4ac5665,
   0xf4292244, 0x432aff97, 0xab9423a7, 0xfc93a039,
   0x655b59c3, 0x8f0ccc92, 0xffeff47d, 0x85845dd1,
   0x6fa87e4f, 0xfe2ce6e0, 0xa3014314, 0x4e0811a1,
   0xf7537e82, 0xbd3af235, 0x2ad7d2bb, 0xeb86d391]

/-- The 64 MD5 per-round shift amounts. -/
def md5S : List Nat :=
  [7, 12, 17, 22, 7, 12, 17, 22, 7, 12, 17, 22, 7, 12, 17, 22,
   5, 9, 14, 20, 5, 9, 14, 20, 5, 9, 14, 20, 5, 9, 14, 20,
   4, 11, 16, 23, 4, 11, 16, 23, 4, 11, 16, 23, 4, 11, 16, 23,
   6, 10, 15, 21, 6, 10, 15, 21, 6, 10, 15, 21, 6, 10, 15, 21]

/-- One of the 64 MD5 operations on the state (A, B, C, D). -/
def md5Step (M : List Nat) (st : Nat × Nat × Nat × Nat) (i : Nat) :
    Nat × Nat × Nat × Nat :=
  let (a, b, c, d) := st
  let fg : Nat × Nat :=
    if i < 16 then (md5F b c d, i)
    else if i < 32 then (md5G b c d, (5 * i + 1) % 16)
    else if i < 48 then (md5H b c d, (3 * i + 5) % 16)
    else (md5I b c d, (7 * i) % 16)
  let f2 := (fg.1 + a + md5K.getD i 0 + M.getD fg.2 0) % m32
  (d, (b + rotl32 f2 (md5S.getD i 0)) % m32, b, c)

/-- Process one 512-bit block given as 16 little-endian words. -/
def md5ProcessBlock (st : Nat × Nat × Nat × Nat) (M : List Nat) :
    Nat × Nat × Nat × Nat :=
  let (a, b, c, d) := (List.range 64).foldl (md5Step M) st
  ((st.1 + a) % m32, (st.2.1 + b) % m32,
   (st.2.2.1 + c) % m32, (st.2.2.2 + d) % m32)

/-- Group bytes into 32-bit words, little-endian. -/
def bytesToWordsLE : List Nat → List Nat
  | b0 :: b1 :: b2 :: b3 :: rest =>
      (b0 + 256 * b1 + 65536 * b2 + 16777216 * b3) :: bytesToWordsLE rest
  | _ => []

/-- Fuelled chunking of a byte list into pieces of at most `n`
(structural recursion so the kernel can evaluate it). -/
def chunkAux (n : Nat) : Nat → List Nat → List (List Nat)
  | 0, _ => []
  | _, [] => []
  | fuel + 1, x :: xs => (x :: xs).take n :: chunkAux n fuel ((x :: xs).drop n)

/-- 64-byte blocks of the padded message. -/
def chunk64 (l : List Nat) : List (List Nat) :=
  chunkAux 64 l.length l

/-- MD5 padding: 0x80, zeros to 56 mod 64, 64-bit little-endian bit
length. -/
def md5Pad (msg : List Nat) : List Nat :=
  let len := msg.length
  let bitLenBytes := (List.range 8).map fun i => len * 8 / 2 ^ (8 * i) % 256
  let padZeros := (120 - (len + 1) % 64) % 64
  msg ++ [128] ++ List.replicate padZeros 0 ++ bitLenBytes

/-- Serialize a 32-bit word to 4 bytes, little-endian. -/
def wordToBytesLE (w : Nat) : List Nat :=
  [w % 256, w / 256 % 256, w / 65536 % 256, w / 16777216 % 256]

/-- The 16-byte MD5 digest of a byte list. -/
def md5Bytes (msg : List Nat) : List Nat :=
  let blocks := chunk64 (md5Pad msg)
  let st := blocks.foldl (fun st blk => md5ProcessBlock st (bytesToWordsLE blk))
    (0x67452301, 0xefcdab89, 0x98badcfe, 0x10325476)
  wordToBytesLE st.1 ++ wordToBytesLE st.2.1 ++
    wordToBytesLE st.2.2.1 ++ wordToBytesLE st.2.2.2

/-- Lowercase hex digit for `n < 16`. -/
def hexDigitChar (n : Nat) : Char :=
  if n < 10 then Char.ofNat (48 + n) else Char.ofNat (97 + n - 10)

/-- Two lowercase hex characters of a byte (`b < 256`), as in
`digest("hex")`. -/
def byteToHexChars (b : Nat) : List Char :=
  [hexDigitChar (b / 16 % 16), hexDigitChar (b % 16)]

/-- `crypto.createHash("md5").update(buffer).digest("hex")`. -/
def md5Hex (msg : List Nat) : String :=
  String.mk ((md5Bytes msg).foldr (fun b acc => byteToHexChars b ++ acc) [])

/-- Fuelled chunking of the bit list into pieces of at most `n`. -/
def chunkBoolAux (n : Nat) : Nat → List Bool → List (List Bool)
  | 0, _ => []
  | _, [] => []
  | fuel + 1, x :: xs =>
      (x :: xs).take n :: chunkBoolAux n fuel ((x :: xs).drop n)

/-- `binaryHash.match(/.{1,8}/g)`: the binary string split into
8-character chunks, the last one possibly shorter. -/
def chunk8 (l : List Bool) : List (List Bool) :=
  chunkBoolAux 8 l.length l

/-- `parseInt(chunk, 2)`: the chunk's first character is the most
significant bit. -/
def bitsToByteMSB (bits : List Bool) : Nat :=
  bits.foldl (fun acc b => 2 * acc + (if b then 1 else 0)) 0

/-- Modelled from the spec: "Pack those bits LSB-first into a byte
buffer" — the chunk's first character taken as the least significant
bit.  This is the packing the spec describes; the code's packing is
`bitsToByteMSB`. -/
def bitsToByteLSB (bits : List Bool) : Nat :=
  bits.foldr (fun b acc => (if b then 1 else 0) + 2 * acc) 0

/-- The thresholding loop: bit i is 1 iff `resizedImage[i] >= avg`
with `avg = sum / resizedImage.length`.  For `len > 0` the comparison
`p ≥ sum / len` is exactly the integer comparison `p · len ≥ sum`
used here (and `sum / 1024` is exact in IEEE doubles for the 32×32
buffers sharp produces). -/
def thresholdBits (resizedImage : List Nat) : List Bool :=
  let sum : Nat := resizedImage.foldl (· + ·) 0
  resizedImage.map fun p => decide (sum ≤ p * resizedImage.length)

/-- `generateImageHash(imageBuffer)` from the resized 32×32 grayscale
buffer on (the `sharp` resize itself is the externally supplied
input).  On an empty buffer `"".match(/.{1,8}/g)` is `null` and the
`.map` on it throws, which the function's `catch` rethrows wrapped;
on any non-empty buffer it returns the hex MD5 of the MSB-first
packed threshold bits. -/
def generateImageHash (resizedImage : List Nat) : Except String String :=
  match resizedImage with
  | [] => .error "Failed to generate image hash: Cannot read properties of null"
  | _ => .ok (md5Hex ((chunk8 (thresholdBits resizedImage)).map bitsToByteMSB))

/-- Modelled from the spec: `generateImageHash` as the spec words it,
with the bits packed LSB-first; used to compare the spec's packing
against the code's. -/
def generateImageHashLSB (resizedImage : List Nat) : Except String String :=
  match resizedImage with
  | [] => .error "Failed to generate image hash: Cannot read properties of null"
  | _ => .ok (md5Hex ((chunk8 (thresholdBits resizedImage)).map bitsToByteLSB))

instance : DecidableEq (Except String String) := fun a b =>
  match a, b with
  | .ok x, .ok y => decidable_of_iff (x = y) (by simp)
  | .error x, .error y => decidable_of_iff (x = y) (by simp)
  | .ok _, .error _ => isFalse (by simp)
  | .error _, .ok _ => isFalse (by simp)

/-- Sanity anchor: the MD5 implementation reproduces the RFC 1321
test digest of `"abc"`. -/
theorem md5Hex_abc : md5Hex [97, 98, 99] =
    "900150983cd24fb0d6963f7d28e17f72" := by decide

/-! ## C8 — pHash structure -/

/-- With enough fuel, the chunks concatenate back to the input. -/
theorem chunkBoolAux_join (n : Nat) (hn : 0 < n) :
    ∀ (fuel : Nat) (l : List Bool), l.length ≤ fuel →
      (chunkBoolAux n fuel l).flatten = l := by
  intro fuel
  induction fuel with
  | zero =>
      intro l hl
      cases l with
      | nil => rfl
      | cons x xs => simp at hl
  | succ f ih =>
      intro l hl
      cases l with
      | nil => rfl
      | cons x xs =>
          simp only [chunkBoolAux, List.flatten_cons]
          rw [ih]
          · exact List.take_append_drop n (x :: xs)
          · simp only [List.length_drop, List.length_cons] at *
            omega

/-- The 8-bit chunking loses no bit and keeps the order. -/
theorem chunk8_join (l : List Bool) : (chunk8 l).flatten = l :=
  chunkBoolAux_join 8 (by norm_num) l.length l le_rfl

/-- Every chunk produced has at most `n` elements. -/
theorem chunkBoolAux_mem_length (n : Nat) :
    ∀ (fuel : Nat) (l : List Bool) (ch : List Bool),
      ch ∈ chunkBoolAux n fuel l → ch.length ≤ n := by
  intro fuel
  induction fuel with
  | zero =>
      intro l ch hch
      simp [chunkBoolAux] at hch
  | succ f ih =>
      intro l ch hch
      cases l with
      | nil => simp [chunkBoolAux] at hch
      | cons x xs =>
          simp only [chunkBoolAux, List.mem_cons] at hch
          rcases hch with rfl | hch
          · simp [List.length_take_le]
          · exact ih _ ch hch

/-- MSB-first packing of at most 8 bits yields a byte value. -/
theorem bitsToByteMSB_lt (ch : List Bool) :
    bitsToByteMSB ch < 2 ^ ch.length := by
  have haux : ∀ (l : List Bool) (acc : Nat),
      l.foldl (fun acc b => 2 * acc + (if b then 1 else 0)) acc <
        (acc + 1) * 2 ^ l.length := by
    intro l
    induction l with
    | nil =>
        intro acc
        simp
    | cons b t iht =>
        intro acc
        have h1 := iht (2 * acc + (if b then 1 else 0))
        have h2 : (2 * acc + (if b then 1 else 0) + 1) * 2 ^ t.length ≤
            (acc + 1) * 2 ^ (t.length + 1) := by
          have hb : (if b then 1 else 0) ≤ 1 := by
            cases b <;> simp
          have : 2 * acc + (if b then 1 else 0) + 1 ≤ 2 * (acc + 1) := by omega
          calc (2 * acc + (if b then 1 else 0) + 1) * 2 ^ t.length
              ≤ 2 * (acc + 1) * 2 ^ t.length :=
                Nat.mul_le_mul_right _ this
            _ = (acc + 1) * 2 ^ (t.length + 1) := by ring
        simpa [List.foldl_cons, List.length_cons] using lt_of_lt_of_le h1 h2
  simpa using haux ch 0

/-- The fold behind `md5Hex` emits two characters per byte. -/
theorem md5HexFold_length (l : List Nat) :
    (l.foldr (fun b acc => byteToHexChars b ++ acc) []).length =
      2 * l.length := by
  induction l with
  | nil => rfl
  | cons b t ih =>
      show (byteToHexChars b ++
        t.foldr (fun b acc => byteToHexChars b ++ acc) []).length =
          2 * (b :: t).length
      rw [List.length_append, ih]
      simp [byteToHexChars]
      ring

/-- Hex digits land in the lowercase hex alphabet. -/
theorem hexDigitChar_mem : ∀ n < 16,
    hexDigitChar n ∈ ("0123456789abcdef").data := by decide

/-- Every character emitted by the `md5Hex` fold is a lowercase hex
digit. -/
theorem md5HexFold_mem (l : List Nat) (c : Char)
    (hc : c ∈ l.foldr (fun b acc => byteToHexChars b ++ acc) []) :
    c ∈ ("0123456789abcdef").data := by
  induction l with
  | nil => cases hc
  | cons b t ih =>
      simp only [List.foldr_cons, List.mem_append] at hc
      rcases hc with hc | hc
      · simp only [byteToHexChars, List.mem_cons, List.not_mem_nil,
          or_false] at hc
        rcases hc with rfl | rfl
        · exact hexDigitChar_mem _ (Nat.mod_lt _ (by norm_num))
        · exact hexDigitChar_mem _ (Nat.mod_lt _ (by norm_num))
      · exact ih hc

/-- The digest has exactly 16 bytes. -/
theorem md5Bytes_length (msg : List Nat) : (md5Bytes msg).length = 16 := by
  simp [md5Bytes, wordToBytesLE]

/-- The hex digest has exactly 32 characters. -/
theorem md5Hex_length (msg : List Nat) : (md5Hex msg).length = 32 := by
  have : (md5Hex msg).length =
      ((md5Bytes msg).foldr (fun b acc => byteToHexChars b ++ acc) []).length := rfl
  rw [this, md5HexFold_length, md5Bytes_length]

/-- C8 (amended): on every buffer on which it succeeds (every
non-empty buffer, in particular the 32×32 grayscale buffers),
`generateImageHash` thresholds each pixel against the average, chunks
the bits into ≤8-bit groups in order and without loss, packs each
chunk MSB-first (`parseInt(chunk, 2)`) into a byte value, and returns
the hex MD5 of that byte buffer: exactly 32 characters, all lowercase
hex; identical input bytes always yield the identical string. -/
theorem generateImageHash_spec (resized : List Nat) :
    (∀ s, generateImageHash resized = .ok s →
      s = md5Hex ((chunk8 (thresholdBits resized)).map bitsToByteMSB) ∧
      s.length = 32 ∧
      ∀ c ∈ s.data, c ∈ ("0123456789abcdef").data) ∧
    (chunk8 (thresholdBits resized)).flatten = thresholdBits resized ∧
    (∀ ch ∈ chunk8 (thresholdBits resized),
      ch.length ≤ 8 ∧ bitsToByteMSB ch < 256) ∧
    (thresholdBits resized).length = resized.length ∧
    (resized ≠ [] → ∃ s, generateImageHash resized = .ok s) ∧
    (∀ other, other = resized →
      generateImageHash other = generateImageHash resized) := by
  refine ⟨?_, chunk8_join _, ?_, ?_, ?_, ?_⟩
  · intro s hs
    cases resized with
    | nil => cases hs
    | cons p rest =>
        have hsv : s = md5Hex ((chunk8 (thresholdBits (p :: rest))).map
            bitsToByteMSB) := by
          have := hs.symm
          simpa [generateImageHash] using this
        subst hsv
        refine ⟨rfl, md5Hex_length _, ?_⟩
        intro c hc
        exact md5HexFold_mem _ c hc
  · intro ch hch
    have h1 := chunkBoolAux_mem_length 8 (thresholdBits resized).length _ ch hch
    refine ⟨h1, ?_⟩
    have h2 := bitsToByteMSB_lt ch
    calc bitsToByteMSB ch < 2 ^ ch.length := h2
      _ ≤ 2 ^ 8 := Nat.pow_le_pow_right (by norm_num) h1
  · simp [thresholdBits]
  · intro hne
    cases resized with
    | nil => exact absurd rfl hne
    | cons p rest => exact ⟨_, rfl⟩
  · intro other h
    rw [h]

set_option maxRecDepth 100000 in
/-- Witness for `generateImageHash_spec`: the digest of the 32×32
buffer with one above-average pixel has 32 characters. -/
theorem generateImageHash_spec_witness :
    ("2f9580f22554e6bba4269b3496906279" : String).length = 32 :=
  ((generateImageHash_spec (255 :: List.replicate 1023 0)).1
    "2f9580f22554e6bba4269b3496906279" (by decide)).2.1

set_option maxRecDepth 100000 in
/-- C8 counterexample: the packing is not LSB-first.  On the 32×32
buffer with a single above-average pixel, the code (MSB-first
`parseInt(chunk, 2)`) hashes the byte 128 where the spec's LSB-first
packing would hash the byte 1, and the two digests differ. -/
theorem generateImageHash_not_lsb :
    generateImageHash (255 :: List.replicate 1023 0) =
      .ok "2f9580f22554e6bba4269b3496906279" ∧
    generateImageHashLSB (255 :: List.replicate 1023 0) =
      .ok "1d697ed4fbc9fc9a46dbd45d22969a25" ∧
    generateImageHash (255 :: List.replicate 1023 0) ≠
      generateImageHashLSB (255 :: List.replicate 1023 0) ∧
    bitsToByteMSB [true, false, false, false, false, false, false, false] = 128 ∧
    bitsToByteLSB [true, false, false, false, false, false, false, false] = 1 := by
  have h1 : generateImageHash (255 :: List.replicate 1023 0) =
      .ok "2f9580f22554e6bba4269b3496906279" := by decide
  have h2 : generateImageHashLSB (255 :: List.replicate 1023 0) =
      .ok "1d697ed4fbc9fc9a46dbd45d22969a25" := by decide
  refine ⟨h1, h2, ?_, rfl, rfl⟩
  rw [h1, h2]
  intro h
  have hstr := Except.ok.inj h
  exact absurd hstr (by decide)
